import Mathlib

/-
Shallow embedding of the Doctor_Appointment_ChatBot repository
(src/database.py, src/doctor.py) for checking the natural-language
specification against the code.

Times of day are embedded as minutes since midnight (Nat): Python
`time(9, 0)` is 540, `time(17, 0)` is 1020, `time(13, 0)` is 780,
`time(14, 0)` is 840, `timedelta(minutes=30)` is 30.  Dates are opaque
Nat values.  The PostgreSQL tables are embedded as lists of row
structures kept in insertion order; `fetchone` on an unordered SELECT is
embedded as `List.find?` (first matching row in insertion order).
-/

namespace DoctorChatBot

/-- `start_time = time(9, 0)` in fetch_available_slots (database.py:205). -/
def startTime : Nat := 540

/-- `end_time = time(17, 0)` in fetch_available_slots (database.py:206). -/
def endTime : Nat := 1020

/-- `interval = timedelta(minutes=30)` (database.py:207). -/
def interval : Nat := 30

/-- `lunch_start = time(13, 0)` (database.py:208, 239). -/
def lunchStart : Nat := 780

/-- `lunch_end = time(14, 0)` (database.py:209, 240). -/
def lunchEnd : Nat := 840

/-- One row of the `appointment_slots` table (database.py:59-68):
(appointment_date, slot_time, is_booked, booked_by).  The `id SERIAL`
column is represented by the position in the list. -/
structure SlotRow where
  appointmentDate : Nat
  slotTime : Nat
  isBooked : Bool
  bookedBy : String
deriving DecidableEq, Repr

/-- The uniqueness constraints actually declared by `create_tables`
(database.py:35-93).  The DDL puts UNIQUE on users.username only; the
`appointment_slots` table has no unique constraint on
(appointment_date, slot_time), and `user_personal_information` has no
unique constraint on username (each table only has `id SERIAL PRIMARY
KEY`). -/
structure Schema where
  usersUsernameUnique : Bool
  appointmentSlotsDateSlotUnique : Bool
  personalInfoUsernameUnique : Bool
deriving DecidableEq, Repr

/-- The schema created by `create_tables` (database.py:35-93). -/
def createTablesSchema : Schema :=
  { usersUsernameUnique := true
    appointmentSlotsDateSlotUnique := false
    personalInfoUsernameUnique := false }

/-- The `while current_time.time() < end_time` loop of
fetch_available_slots (database.py:217-227), with an explicit fuel
argument bounding the number of iterations so the recursion is
structural: walk the 30-minute boundaries from `current`, skip
boundaries in [lunch_start, lunch_end), append boundaries not in
`booked`, stop when `current` reaches end_time. -/
def genSlotsGo (booked : List Nat) : Nat → Nat → List Nat
  | 0, _ => []
  | fuel + 1, current =>
    if current < endTime then
      if lunchStart ≤ current ∧ current < lunchEnd then
        genSlotsGo booked fuel (current + interval)
      else if current ∈ booked then
        genSlotsGo booked fuel (current + interval)
      else
        current :: genSlotsGo booked fuel (current + interval)
    else
      []

/-- The while loop of fetch_available_slots started at `current`.  Fuel
`endTime - current` never runs out before the loop condition fails,
because each iteration advances `current` by `interval = 30 ≥ 1`. -/
def genSlots (current : Nat) (booked : List Nat) : List Nat :=
  genSlotsGo booked (endTime - current) current

/-- fetch_available_slots (database.py:201-231).  Note the SELECT at
line 214 filters only on appointment_date: every stored row for the
date is put into `booked_slots`, whether or not is_booked is true. -/
def fetchAvailableSlots (store : List SlotRow) (date : Nat) : List Nat :=
  let bookedSlots := (store.filter (fun r => r.appointmentDate == date)).map (fun r => r.slotTime)
  genSlots startTime bookedSlots

/-- Return string of the successful-booking path (database.py:258). -/
def bookedMsg : String := "Appointment booked successfully."

/-- Return string of the already-booked path (database.py:250). -/
def alreadyMsg : String := "Slot already booked."

/-- Return string of the lunch-time rejection (database.py:244). -/
def lunchMsg : String := "No appointments can be booked during lunch time from 13:00 to 14:00."

/-- A database operation executed by a cursor, recorded so that the
claims about which paths touch storage are statable. -/
inductive DBOp
  | select
  | insert
deriving DecidableEq, Repr

/-- Result of book_appointment: the returned string, the state of the
`appointment_slots` table after the call, and the queries the call
executed against that table. -/
structure BookResult where
  message : String
  store : List SlotRow
  ops : List DBOp
deriving DecidableEq, Repr

/-- book_appointment (database.py:234-265), sequential execution.

`dbErr = some e` injects a psycopg2.Error raised by the SELECT, the
INSERT or the commit; the `except` branch (database.py:260-262) rolls
the transaction back, so the table is unchanged, and returns the
`"Database error: ..."` string.  The lunch-time check (database.py:243)
runs before any query is executed, so it returns even when the database
would error.

There is no working-window check in the source: any non-lunch slot time
reaches the SELECT/INSERT path.  The check at database.py:249 is
`if result and result[0]`, so a fetched row with is_booked false falls
through to the INSERT.  The INSERT (database.py:252-255) always sets
is_booked TRUE, and it cannot conflict because
`createTablesSchema.appointmentSlotsDateSlotUnique = false`. -/
def bookAppointment (dbErr : Option String) (store : List SlotRow)
    (username : String) (appointmentDate slotTime : Nat) : BookResult :=
  if lunchStart ≤ slotTime ∧ slotTime < lunchEnd then
    ⟨lunchMsg, store, []⟩
  else
    match dbErr with
    | some e => ⟨"Database error: " ++ e, store, []⟩
    | none =>
      match store.find? (fun r => r.appointmentDate == appointmentDate && r.slotTime == slotTime) with
      | some r =>
        if r.isBooked then
          ⟨alreadyMsg, store, [.select]⟩
        else
          ⟨bookedMsg, store ++ [⟨appointmentDate, slotTime, true, username⟩], [.select, .insert]⟩
      | none =>
        ⟨bookedMsg, store ++ [⟨appointmentDate, slotTime, true, username⟩], [.select, .insert]⟩

/-- get_db_connection (database.py:19-32) returns None when psycopg2
cannot connect; fetch_available_slots (database.py:202-203) then calls
`conn.cursor()` on None and the resulting exception propagates out of
the function uncaught.  That failure path is embedded as the `.error`
value: the caller never receives an ordinary (possibly empty) slot
list when the store is unreachable. -/
def fetchAvailableSlotsConn (connOk : Bool) (store : List SlotRow) (date : Nat) :
    Except String (List Nat) :=
  if connOk then
    .ok (fetchAvailableSlots store date)
  else
    .error "NoneType object has no attribute cursor"

example : fetchAvailableSlots [] 0 =
    [540, 570, 600, 630, 660, 690, 720, 750, 840, 870, 900, 930, 960, 990] := by decide

theorem genSlotsGo_mem {booked : List Nat} :
    ∀ fuel current t, t ∈ genSlotsGo booked fuel current →
      current ≤ t ∧ t < endTime ∧ ¬(lunchStart ≤ t ∧ t < lunchEnd) ∧ t ∉ booked
  | 0, current, t, h => by simp [genSlotsGo] at h
  | fuel + 1, current, t, h => by
    have hi : interval = 30 := rfl
    rw [genSlotsGo] at h
    split at h
    case isTrue hc =>
      split at h
      case isTrue hl =>
        obtain ⟨h1, h2, h3, h4⟩ := genSlotsGo_mem fuel (current + interval) t h
        exact ⟨by omega, h2, h3, h4⟩
      case isFalse hl =>
        split at h
        case isTrue hb =>
          obtain ⟨h1, h2, h3, h4⟩ := genSlotsGo_mem fuel (current + interval) t h
          exact ⟨by omega, h2, h3, h4⟩
        case isFalse hb =>
          rcases List.mem_cons.mp h with rfl | h
          · exact ⟨le_refl _, hc, hl, hb⟩
          · obtain ⟨h1, h2, h3, h4⟩ := genSlotsGo_mem fuel (current + interval) t h
            exact ⟨by omega, h2, h3, h4⟩
    case isFalse hc => simp at h

theorem genSlotsGo_sorted {booked : List Nat} :
    ∀ fuel current, (genSlotsGo booked fuel current).Pairwise (· < ·)
  | 0, current => by simp [genSlotsGo]
  | fuel + 1, current => by
    have hi : interval = 30 := rfl
    rw [genSlotsGo]
    split
    case isTrue hc =>
      split
      case isTrue hl => exact genSlotsGo_sorted fuel (current + interval)
      case isFalse hl =>
        split
        case isTrue hb => exact genSlotsGo_sorted fuel (current + interval)
        case isFalse hb =>
          refine List.Pairwise.cons ?_ (genSlotsGo_sorted fuel (current + interval))
          intro y hy
          have h1 := (genSlotsGo_mem fuel (current + interval) y hy).1
          omega
    case isFalse hc => simp

theorem genSlotsGo_mem_iff {booked : List Nat} :
    ∀ fuel current t,
      t ∈ genSlotsGo booked fuel current ↔ t ∈ genSlotsGo [] fuel current ∧ t ∉ booked
  | 0, current, t => by simp [genSlotsGo]
  | fuel + 1, current, t => by
    rw [genSlotsGo, genSlotsGo]
    by_cases hc : current < endTime
    · by_cases hl : lunchStart ≤ current ∧ current < lunchEnd
      · simp only [if_pos hc, if_pos hl]
        exact genSlotsGo_mem_iff fuel (current + interval) t
      · by_cases hb : current ∈ booked
        · simp only [if_pos hc, if_neg hl, if_pos hb,
            if_neg (List.not_mem_nil current), List.mem_cons]
          rw [genSlotsGo_mem_iff fuel (current + interval) t]
          constructor
          · intro ⟨h1, h2⟩
            exact ⟨Or.inr h1, h2⟩
          · rintro ⟨rfl | h1, h2⟩
            · exact absurd hb h2
            · exact ⟨h1, h2⟩
        · simp only [if_pos hc, if_neg hl, if_neg hb,
            if_neg (List.not_mem_nil current), List.mem_cons]
          rw [genSlotsGo_mem_iff fuel (current + interval) t]
          constructor
          · rintro (rfl | ⟨h1, h2⟩)
            · exact ⟨Or.inl rfl, hb⟩
            · exact ⟨Or.inr h1, h2⟩
          · rintro ⟨rfl | h1, h2⟩
            · exact Or.inl rfl
            · exact Or.inr ⟨h1, h2⟩
    · simp [if_neg hc]

/-- Membership in the result of fetch_available_slots: a time is
returned iff it is one of the base slots of the day (the while loop run
with nothing booked) and no row for that date stores it. -/
theorem mem_fetchAvailableSlots (store : List SlotRow) (date t : Nat) :
    t ∈ fetchAvailableSlots store date ↔
      t ∈ genSlots startTime [] ∧
        ∀ r ∈ store, r.appointmentDate = date → r.slotTime ≠ t := by
  rw [fetchAvailableSlots, genSlots, genSlots, genSlotsGo_mem_iff]
  constructor
  · intro ⟨h1, h2⟩
    refine ⟨h1, ?_⟩
    intro r hr hd ht
    exact h2 (List.mem_map.mpr ⟨r, List.mem_filter.mpr ⟨hr, by simp [hd]⟩, ht⟩)
  · intro ⟨h1, h2⟩
    refine ⟨h1, ?_⟩
    intro hmem
    obtain ⟨r, hr, ht⟩ := List.mem_map.mp hmem
    obtain ⟨hr1, hd⟩ := List.mem_filter.mp hr
    exact h2 r hr1 (by simpa using hd) ht

example : (bookAppointment none [] "alice" 0 540).message = bookedMsg := by decide

example : (bookAppointment none [⟨0, 540, true, "alice"⟩] "bob" 0 540).message = alreadyMsg := by decide

example : (bookAppointment none [] "alice" 0 780).message = lunchMsg := by decide

/-- One row of the `chat_history` table (database.py:47-57):
(username, session_id, user_message, ai_message, message_time).  The
`id SERIAL` column is the position in the list; `message_time TIMESTAMP
DEFAULT CURRENT_TIMESTAMP` is a Nat timestamp. -/
structure ChatRow where
  username : String
  sessionId : String
  userMessage : String
  aiMessage : String
  messageTime : Nat
deriving DecidableEq, Repr

/-- The `chat_history` table together with the database clock that
stamps `CURRENT_TIMESTAMP` onto inserted rows.  The clock advances
strictly between the separate connections/transactions used by
successive save_chat_history calls. -/
structure ChatDB where
  rows : List ChatRow
  clock : Nat
deriving DecidableEq, Repr

/-- save_chat_history (database.py:188-198): INSERT one row stamped with
the current timestamp. -/
def saveChatHistory (db : ChatDB) (username sessionId userMessage aiMessage : String) : ChatDB :=
  { rows := db.rows ++ [⟨username, sessionId, userMessage, aiMessage, db.clock⟩]
    clock := db.clock + 1 }

/-- Insertion step of the `ORDER BY message_time` sort. -/
def insertByTime (r : ChatRow) : List ChatRow → List ChatRow
  | [] => [r]
  | x :: xs =>
    if x.messageTime ≤ r.messageTime then x :: insertByTime r xs else r :: x :: xs

/-- `ORDER BY message_time` (database.py:180) as an insertion sort by
the timestamp column. -/
def sortByTime : List ChatRow → List ChatRow
  | [] => []
  | x :: xs => insertByTime x (sortByTime xs)

/-- fetch_chat_history (database.py:176-185): SELECT user_message,
ai_message for the given username and session_id, ORDER BY
message_time. -/
def fetchChatHistory (db : ChatDB) (username sessionId : String) : List (String × String) :=
  (sortByTime (db.rows.filter (fun r => r.username == username && r.sessionId == sessionId))).map
    (fun r => (r.userMessage, r.aiMessage))

/-- Appending a finite sequence of turns to a session through repeated
save_chat_history calls. -/
def appendTurns (db : ChatDB) (username sessionId : String) : List (String × String) → ChatDB
  | [] => db
  | (userMessage, aiMessage) :: ts =>
    appendTurns (saveChatHistory db username sessionId userMessage aiMessage) username sessionId ts

/-- Rehydration of a previous session (doctor.py:279-287): the sidebar
handler clears `past`/`generated` and refills them from
fetch_chat_history, user messages into `past` and assistant messages
into `generated`, in the fetched order. -/
def rehydrateSession (db : ChatDB) (username sessionId : String) : List String × List String :=
  let history := fetchChatHistory db username sessionId
  (history.map Prod.fst, history.map Prod.snd)

/-- Well-formedness of the chat store: rows are in strictly increasing
timestamp order (each row was stamped by a strictly later transaction)
and every stamp is in the past of the clock. -/
def ChatDB.WF (db : ChatDB) : Prop :=
  db.rows.Pairwise (fun a b => a.messageTime < b.messageTime) ∧
    ∀ r ∈ db.rows, r.messageTime < db.clock

theorem insertByTime_of_lt (r : ChatRow) (l : List ChatRow)
    (h : ∀ y ∈ l, r.messageTime < y.messageTime) : insertByTime r l = r :: l := by
  cases l with
  | nil => rfl
  | cons x xs =>
    rw [insertByTime, if_neg]
    have := h x (List.mem_cons_self x xs)
    omega

theorem sortByTime_of_sorted (l : List ChatRow)
    (h : l.Pairwise (fun a b => a.messageTime < b.messageTime)) : sortByTime l = l := by
  induction l with
  | nil => rfl
  | cons x xs ih =>
    rw [List.pairwise_cons] at h
    rw [sortByTime, ih h.2, insertByTime_of_lt x xs h.1]

theorem saveChatHistory_WF (db : ChatDB) (u s um am : String) (h : db.WF) :
    (saveChatHistory db u s um am).WF := by
  obtain ⟨h1, h2⟩ := h
  constructor
  · rw [saveChatHistory, List.pairwise_append]
    refine ⟨h1, List.pairwise_singleton _ _, ?_⟩
    intro a ha b hb
    rw [List.mem_singleton] at hb
    subst hb
    exact h2 a ha
  · intro r hr
    rw [saveChatHistory, List.mem_append, List.mem_singleton] at hr
    rcases hr with hr | rfl
    · have := h2 r hr
      simp only [saveChatHistory]
      omega
    · simp [saveChatHistory]

theorem fetchChatHistory_save (db : ChatDB) (u s um am : String) (h : db.WF) :
    fetchChatHistory (saveChatHistory db u s um am) u s =
      fetchChatHistory db u s ++ [(um, am)] := by
  obtain ⟨h1, h2⟩ := h
  have hfilter : ∀ (l : List ChatRow),
      l.Pairwise (fun a b => a.messageTime < b.messageTime) →
      (l.filter (fun r => r.username == u && r.sessionId == s)).Pairwise
        (fun a b => a.messageTime < b.messageTime) :=
    fun l hl => hl.sublist (List.filter_sublist l)
  rw [fetchChatHistory, fetchChatHistory, saveChatHistory]
  simp only [List.filter_append]
  rw [List.filter_cons]
  simp only [beq_self_eq_true, Bool.and_self, if_pos, List.filter_nil]
  rw [sortByTime_of_sorted _ (hfilter db.rows h1)]
  rw [sortByTime_of_sorted]
  · simp
  · rw [List.pairwise_append]
    refine ⟨hfilter db.rows h1, List.pairwise_singleton _ _, ?_⟩
    intro a ha b hb
    rw [List.mem_singleton] at hb
    subst hb
    exact h2 a (List.mem_of_mem_filter ha)

/-- One entry of `st.session_state['messages']` (doctor.py:215, 332,
337): a role/content pair. -/
structure Message where
  role : String
  content : String
deriving DecidableEq, Repr

/-- The session-local Streamlit state: exactly the keys of the
`defaults` dict (doctor.py:209-221). -/
structure SessionState where
  username : Option String
  currentSessionId : Option String
  past : List String
  generated : List String
  inputText : String
  messages : List Message
  personalInfoCollected : Bool
  feedbackCollected : Bool
  logout : Bool
  appointmentBooked : Bool
  page : String
deriving DecidableEq, Repr

/-- The `defaults` dict (doctor.py:209-221). -/
def defaults : SessionState :=
  { username := none
    currentSessionId := none
    past := []
    generated := []
    inputText := ""
    messages := [⟨"assistant", "Welcome to the doctor appointment service! How can I assist you today?"⟩]
    personalInfoCollected := false
    feedbackCollected := false
    logout := false
    appointmentBooked := false
    page := "chat" }

/-- Substring containment on character lists (the Python `in` operator
on strings). -/
def containsSeq (pat : List Char) : List Char → Bool
  | [] => pat.isEmpty
  | c :: rest => pat.isPrefixOf (c :: rest) || containsSeq pat rest

/-- The booking-intent heuristic `"book appointment" in
user_input.lower()` (doctor.py:318). -/
def isBookingIntent (userInput : String) : Bool :=
  containsSeq "book appointment".toList (userInput.toList.map Char.toLower)

/-- The fixed refusal reply of the toxicity branch (doctor.py:315). -/
def toxicRefusal : String := "Sorry, I cannot respond to this request."

/-- A row submitted to save_chat_history by the chat form handler
(doctor.py:346). -/
structure SavedTurn where
  username : String
  sessionId : String
  userMessage : String
  aiMessage : String
deriving DecidableEq, Repr

/-- The chat form submit handler (doctor.py:310-348) for a non-empty
submitted input.  External collaborators enter as inputs: `toxic` is
detect_toxicity(user_input); `faq` is get_most_relevant_faq's result
(question, answer, similarity), with similarity exact rational;
`llmReply` is what generate_response would return.  The result is the
updated session state and the list of rows the handler submits to
save_chat_history (the handler ignores save failures, doctor.py:345-348).

Branches as in the source: no active session → error message, state kept;
toxic → only `generated` grows by the fixed refusal (doctor.py:313-317:
there is no `past.append` and no save on this branch); booking keyword →
only `page` flips to booking (doctor.py:318-320); otherwise FAQ answer
(similarity > 0.7) or LLM fallback, and then `past`, `generated` grow by
the (utterance, reply) pair and the turn is submitted for saving
(doctor.py:321-348). -/
def chatFormHandler (toxic : Bool) (faq : Option (String × String × ℚ)) (llmReply : String)
    (userInput : String) (st : SessionState) : SessionState × List SavedTurn :=
  if st.currentSessionId.isNone then
    (st, [])
  else if toxic then
    ({ st with generated := st.generated ++ [toxicRefusal] }, [])
  else if isBookingIntent userInput then
    ({ st with page := "booking" }, [])
  else
    let stepped : String × List Message :=
      match faq with
      | some (_, faqAnswer, similarity) =>
        if similarity > 7 / 10 then
          (faqAnswer, st.messages)
        else
          (llmReply, st.messages ++ [⟨"user", userInput⟩])
      | none => (llmReply, st.messages ++ [⟨"user", userInput⟩])
    ({ st with
        past := st.past ++ [userInput]
        generated := st.generated ++ [stepped.1]
        messages := stepped.2 },
      [⟨st.username.getD "", st.currentSessionId.getD "", userInput, stepped.1⟩])

/-- One row of the `user_personal_information` table (database.py:80-89). -/
structure ProfileRow where
  username : String
  name : String
  birthDate : Nat
  reasonForAppointment : String
deriving DecidableEq, Repr

/-- insert_personal_information (database.py:146-161).  The statement is
`INSERT ... ON CONFLICT (username) DO UPDATE SET ...`.  PostgreSQL
accepts an `ON CONFLICT (cols)` arbiter only when a unique or exclusion
constraint on those columns exists; otherwise the statement itself
raises an error (psycopg2.Error), which the function catches at
database.py:157-158 (st.error) leaving the table unchanged.  The schema
argument carries which unique constraints create_tables declared.
Returns the table after the call and the reported database error, if
any. -/
def insertPersonalInformation (schema : Schema) (store : List ProfileRow)
    (username name : String) (birthDate : Nat) (reason : String) :
    List ProfileRow × Option String :=
  if schema.personalInfoUsernameUnique then
    if (store.filter (fun r => r.username == username)).isEmpty then
      (store ++ [⟨username, name, birthDate, reason⟩], none)
    else
      (store.map (fun r =>
        if r.username == username then
          { r with name := name, birthDate := birthDate, reasonForAppointment := reason }
        else r), none)
  else
    (store, some "there is no unique or exclusion constraint matching the ON CONFLICT specification")

/-- The persistent stores of the application, one component per table
created by create_tables (database.py:35-93). -/
structure Databases where
  users : List (String × String)
  chat : ChatDB
  slots : List SlotRow
  feedback : List (String × String)
  profiles : List ProfileRow
deriving Repr

/-- Whole-application state: the persistent stores plus the
session-local Streamlit state. -/
structure AppState where
  session : SessionState
  db : Databases
deriving Repr

/-- The logout reset (doctor.py:391-395):
`st.session_state.update({k: defaults[k] for k in defaults})` runs once
feedback collection finished; it writes only the session-state keys of
the `defaults` dict and issues no database statement. -/
def logoutReset (s : AppState) : AppState :=
  { s with session := defaults }

/-- Progress of one in-flight book_appointment call: it has not yet run
the SELECT (database.py:246), it has fetched its check result, or it has
returned. -/
inductive Phase
  | start
  | checked (free : Bool)
  | done (result : String)
deriving DecidableEq, Repr

/-- One in-flight `reserve(date, slot, user)` call. -/
structure ReserveCall where
  user : String
  date : Nat
  slot : Nat
  phase : Phase
deriving DecidableEq, Repr

/-- Shared state of concurrently executing book_appointment calls: the
`appointment_slots` table and the per-call progress. -/
structure ConcState where
  store : List SlotRow
  calls : List ReserveCall
deriving DecidableEq, Repr

/-- One atomic database step of call `i` of book_appointment
(database.py:242-258) under concurrent execution.  The lunch check and
the SELECT fetch form the first step; the INSERT plus commit form the
second.  Each step is atomic at the database, but between the two steps
of one call, other calls may run (the source holds no lock and the
check and the insert are separate statements).  The INSERT raises a
duplicate-key error only when the schema declares a unique constraint
for (appointment_date, slot_time); `createTablesSchema` does not. -/
def stepCall (schema : Schema) (st : ConcState) (i : Nat) : ConcState :=
  match st.calls[i]? with
  | none => st
  | some c =>
    match c.phase with
    | .done _ => st
    | .start =>
      if lunchStart ≤ c.slot ∧ c.slot < lunchEnd then
        { st with calls := st.calls.set i ({ c with phase := .done lunchMsg }) }
      else
        let free :=
          match st.store.find? (fun r => r.appointmentDate == c.date && r.slotTime == c.slot) with
          | some r => !r.isBooked
          | none => true
        { st with calls := st.calls.set i ({ c with phase := .checked free }) }
    | .checked free =>
      if free then
        if schema.appointmentSlotsDateSlotUnique ∧
            (st.store.find? (fun r => r.appointmentDate == c.date && r.slotTime == c.slot)).isSome then
          { st with calls := st.calls.set i ({ c with phase := .done "Database error: duplicate key value violates unique constraint" }) }
        else
          { store := st.store ++ [⟨c.date, c.slot, true, c.user⟩]
            calls := st.calls.set i ({ c with phase := .done bookedMsg }) }
      else
        { st with calls := st.calls.set i ({ c with phase := .done alreadyMsg }) }

/-- Run the atomic steps of the listed calls in the scheduled order. -/
def runSchedule (schema : Schema) : ConcState → List Nat → ConcState
  | st, [] => st
  | st, i :: rest => runSchedule schema (stepCall schema st i) rest

/-- All rows of the `appointment_slots` table carry is_booked = true.
This holds for every table reachable through book_appointment, whose
INSERT always writes TRUE (database.py:252-255); no other code inserts
into the table. -/
def AllBooked (store : List SlotRow) : Prop :=
  ∀ r ∈ store, r.isBooked = true

theorem bookAppointment_AllBooked (dbErr : Option String) (store : List SlotRow)
    (u : String) (d s : Nat) (h : AllBooked store) :
    AllBooked (bookAppointment dbErr store u d s).store := by
  have happ : AllBooked (store ++ [⟨d, s, true, u⟩]) := by
    intro r hr
    rw [List.mem_append, List.mem_singleton] at hr
    rcases hr with hr | rfl
    · exact h r hr
    · rfl
  rw [bookAppointment.eq_def]
  split
  · exact h
  · cases dbErr with
    | some e => exact h
    | none =>
      dsimp only
      split
      · split
        · exact h
        · exact happ
      · exact happ

/-- Stated from the spec sentence for available_slots: slots_for(date)
minus the set of slot-start-times already marked booked=true for that
date, order preserved (rows with booked=false are not subtracted).
This is the comparison definition for the refinement claim about
fetch_available_slots; it is written from the words of the spec, not
from the source. -/
def specAvailableSlots (store : List SlotRow) (date : Nat) : List Nat :=
  genSlots startTime
    ((store.filter (fun r => r.appointmentDate == date && r.isBooked)).map (fun r => r.slotTime))

/-- A confirmed booking implies: the slot is not in the lunch window,
no row for (date, slot) pre-existed, and the table grew by exactly the
new booked row.  Uses the reachability invariant that all stored rows
are booked. -/
theorem bookAppointment_confirmed (store : List SlotRow) (u : String) (d s : Nat)
    (hAB : AllBooked store)
    (hconf : (bookAppointment none store u d s).message = bookedMsg) :
    ¬(lunchStart ≤ s ∧ s < lunchEnd) ∧
      store.find? (fun r => r.appointmentDate == d && r.slotTime == s) = none ∧
      (bookAppointment none store u d s).store = store ++ [⟨d, s, true, u⟩] := by
  by_cases hl : lunchStart ≤ s ∧ s < lunchEnd
  · exfalso
    rw [bookAppointment.eq_def, if_pos hl] at hconf
    exact (by decide : lunchMsg ≠ bookedMsg) hconf
  · refine ⟨hl, ?_⟩
    rw [bookAppointment.eq_def, if_neg hl] at hconf ⊢
    cases hf : store.find? (fun r => r.appointmentDate == d && r.slotTime == s) with
    | none => simp [hf]
    | some r =>
      exfalso
      have hb : r.isBooked = true := hAB r (List.mem_of_find?_eq_some hf)
      rw [hf] at hconf
      simp only [hb, if_pos] at hconf
      exact (by decide : alreadyMsg ≠ bookedMsg) hconf

/-- The freshly appended booked row is the first (and only) match that
the re-checking SELECT of a second call finds. -/
theorem find?_append_booked (store : List SlotRow) (u : String) (d s : Nat)
    (hf : store.find? (fun r => r.appointmentDate == d && r.slotTime == s) = none) :
    (store ++ [(⟨d, s, true, u⟩ : SlotRow)]).find?
        (fun r => r.appointmentDate == d && r.slotTime == s) = some ⟨d, s, true, u⟩ := by
  rw [List.find?_append, hf]
  simp

/-- C2: once reserve(D, S, U1) has returned Confirmed, any subsequent
sequential reserve(D, S, U2) returns AlreadyBooked and S no longer
appears in available_slots(D).  The hypothesis `AllBooked store` is the
invariant of every table reachable through book_appointment (its INSERT
always writes is_booked TRUE). -/
theorem C2_confirmed_then_already_booked (store : List SlotRow) (u1 u2 : String) (d s : Nat)
    (hAB : AllBooked store)
    (hconf : (bookAppointment none store u1 d s).message = bookedMsg) :
    (bookAppointment none (bookAppointment none store u1 d s).store u2 d s).message = alreadyMsg ∧
      s ∉ fetchAvailableSlots (bookAppointment none store u1 d s).store d := by
  obtain ⟨hl, hf, hstore⟩ := bookAppointment_confirmed store u1 d s hAB hconf
  rw [hstore]
  constructor
  · rw [bookAppointment.eq_def, if_neg hl, find?_append_booked store u1 d s hf]
    rfl
  · intro hmem
    obtain ⟨_, h2⟩ := (mem_fetchAvailableSlots _ _ _).mp hmem
    exact h2 ⟨d, s, true, u1⟩ (by simp) rfl rfl

theorem C2_confirmed_then_already_booked_witness :
    AllBooked ([] : List SlotRow) ∧
      (bookAppointment none [] "alice" 0 540).message = bookedMsg ∧
      (bookAppointment none (bookAppointment none [] "alice" 0 540).store "bob" 0 540).message =
        alreadyMsg ∧
      540 ∉ fetchAvailableSlots (bookAppointment none [] "alice" 0 540).store 0 := by
  have h1 : AllBooked ([] : List SlotRow) := fun r hr => absurd hr (List.not_mem_nil r)
  have h2 : (bookAppointment none [] "alice" 0 540).message = bookedMsg := by decide
  have h3 := C2_confirmed_then_already_booked [] "alice" "bob" 0 540 h1 h2
  exact ⟨h1, h2, h3.1, h3.2⟩

/-- C3 counterexample: on a table holding a row for (date 0, 09:00) with
is_booked = false, fetch_available_slots subtracts 09:00 anyway, while
the spec sentence (available_slots = slots_for minus the slots marked
booked=true) keeps it.  So the claim that rows with booked=false are
not subtracted is false of the code. -/
theorem C3_counterexample_unbooked_row_subtracted :
    fetchAvailableSlots [⟨0, 540, false, "alice"⟩] 0 ≠
        specAvailableSlots [⟨0, 540, false, "alice"⟩] 0 ∧
      540 ∉ fetchAvailableSlots [⟨0, 540, false, "alice"⟩] 0 ∧
      540 ∈ specAvailableSlots [⟨0, 540, false, "alice"⟩] 0 := by decide

/-- C3 amended: available_slots(D) is the strictly ascending sequence of
30-minute boundaries in [09:00, 17:00) excluding [13:00, 14:00), minus
the slot times of all stored rows for D regardless of the booked flag;
with no stored rows it is the 14 slots 09:00-12:30, 14:00-16:30. -/
theorem C3_available_slots_amended (store : List SlotRow) (date : Nat) :
    (∀ t, t ∈ fetchAvailableSlots store date ↔
        (t ∈ genSlots startTime [] ∧
          ∀ r ∈ store, r.appointmentDate = date → r.slotTime ≠ t)) ∧
      (fetchAvailableSlots store date).Pairwise (· < ·) ∧
      (∀ t ∈ fetchAvailableSlots store date,
        startTime ≤ t ∧ t < endTime ∧ ¬(lunchStart ≤ t ∧ t < lunchEnd)) ∧
      fetchAvailableSlots [] date =
        [540, 570, 600, 630, 660, 690, 720, 750, 840, 870, 900, 930, 960, 990] := by
  refine ⟨fun t => mem_fetchAvailableSlots store date t, ?_, ?_, by rfl⟩
  · exact genSlotsGo_sorted _ _
  · intro t ht
    have h := genSlotsGo_mem _ _ t ht
    exact ⟨h.1, h.2.1, h.2.2.1⟩

/-- C4: the claim says submitting the intake form upserts the single
profile row per user.  In the code, insert_personal_information issues
`ON CONFLICT (username) DO UPDATE`, but create_tables declares no
unique constraint on user_personal_information.username, so PostgreSQL
rejects the statement itself; the caught error is reported and the
table is never changed: no first submission ever creates a row. -/
theorem C4_personal_info_upsert_always_errors (store : List ProfileRow)
    (username name : String) (birthDate : Nat) (reason : String) :
    insertPersonalInformation createTablesSchema store username name birthDate reason =
      (store,
        some "there is no unique or exclusion constraint matching the ON CONFLICT specification") :=
  rfl

/-- C5 counterexample: reserve at 18:00 (= 1080 minutes, outside the
09:00-17:00 working window) on an empty table is not rejected with an
OutsideWindow outcome before touching storage: book_appointment has no
working-window check, runs its SELECT and INSERT, writes a booking row
and reports success. -/
theorem C5_counterexample_no_outside_window_check :
    (bookAppointment none [] "alice" 0 1080).message = bookedMsg ∧
      (bookAppointment none [] "alice" 0 1080).store = [⟨0, 1080, true, "alice"⟩] ∧
      (bookAppointment none [] "alice" 0 1080).ops = [.select, .insert] := by decide

/-- C5 amended: a reserve whose slot lies in [13:00, 14:00) returns the
lunch-time rejection without reading or writing storage and leaves the
table unchanged, regardless of booking state and even when the database
would error; there is no outside-window rejection in the code. -/
theorem C5_lunch_rejected_amended (dbErr : Option String) (store : List SlotRow)
    (u : String) (d s : Nat) (h : lunchStart ≤ s ∧ s < lunchEnd) :
    bookAppointment dbErr store u d s = ⟨lunchMsg, store, []⟩ := by
  rw [bookAppointment.eq_def, if_pos h]

theorem C5_lunch_rejected_amended_witness :
    bookAppointment none [⟨0, 540, true, "bob"⟩] "alice" 0 780 =
      ⟨lunchMsg, [⟨0, 540, true, "bob"⟩], []⟩ :=
  C5_lunch_rejected_amended none [⟨0, 540, true, "bob"⟩] "alice" 0 780 (by decide)

/-- C6: when the booking store cannot be reached, available_slots does
not return an ordinary (possibly empty) slot list: the call fails with
the distinct error outcome (the cursor call on the None connection), so
a caller can always distinguish "no slots" from "could not check". -/
theorem C6_storage_unavailable_distinct (store : List SlotRow) (date : Nat) :
    fetchAvailableSlotsConn false store date =
        Except.error "NoneType object has no attribute cursor" ∧
      ∀ slots : List Nat, fetchAvailableSlotsConn false store date ≠ Except.ok slots := by
  refine ⟨rfl, ?_⟩
  intro slots h
  exact Except.noConfusion h

theorem C6_storage_unavailable_distinct_witness :
    fetchAvailableSlotsConn false [] 0 =
        Except.error "NoneType object has no attribute cursor" ∧
      ∀ slots : List Nat, fetchAvailableSlotsConn false [] 0 ≠ Except.ok slots :=
  C6_storage_unavailable_distinct [] 0

/-- C7: appending a finite sequence of turns to a session and reading
the session back returns the prior history followed by exactly those
(utterance, reply) pairs in order, and rehydrating the session fills
`past` and `generated` with the user and assistant messages of that
sequence in stored chronological order.  The hypothesis is the
well-formedness invariant of the chat store (strictly increasing
timestamps, all before the clock), which holds of every store built by
save_chat_history. -/
theorem C7_history_round_trip (db : ChatDB) (u s : String) (ts : List (String × String))
    (h : db.WF) :
    fetchChatHistory (appendTurns db u s ts) u s = fetchChatHistory db u s ++ ts ∧
      rehydrateSession (appendTurns db u s ts) u s =
        ((fetchChatHistory db u s ++ ts).map Prod.fst,
          (fetchChatHistory db u s ++ ts).map Prod.snd) := by
  have main : ∀ (ts : List (String × String)) (db : ChatDB), db.WF →
      fetchChatHistory (appendTurns db u s ts) u s = fetchChatHistory db u s ++ ts := by
    intro ts
    induction ts with
    | nil => intro db h; simp [appendTurns]
    | cons t ts ih =>
      intro db h
      obtain ⟨um, am⟩ := t
      rw [appendTurns, ih _ (saveChatHistory_WF db u s um am h),
        fetchChatHistory_save db u s um am h]
      simp
  refine ⟨main ts db h, ?_⟩
  simp only [rehydrateSession, main ts db h]

theorem C7_history_round_trip_witness :
    fetchChatHistory (appendTurns ⟨[], 0⟩ "alice" "s1" [("hi", "hello"), ("thanks", "welcome")])
        "alice" "s1" =
      fetchChatHistory ⟨[], 0⟩ "alice" "s1" ++ [("hi", "hello"), ("thanks", "welcome")] ∧
      rehydrateSession (appendTurns ⟨[], 0⟩ "alice" "s1" [("hi", "hello"), ("thanks", "welcome")])
          "alice" "s1" =
        ((fetchChatHistory ⟨[], 0⟩ "alice" "s1" ++ [("hi", "hello"), ("thanks", "welcome")]).map
            Prod.fst,
          (fetchChatHistory ⟨[], 0⟩ "alice" "s1" ++ [("hi", "hello"), ("thanks", "welcome")]).map
            Prod.snd) :=
  C7_history_round_trip ⟨[], 0⟩ "alice" "s1" [("hi", "hello"), ("thanks", "welcome")]
    ⟨List.Pairwise.nil, fun r hr => absurd hr (List.not_mem_nil r)⟩

/-- An active logged-in session state: the defaults with a user logged
in and a current session id chosen at login (doctor.py:250-251). -/
def sessionActive : SessionState :=
  { defaults with username := some "alice", currentSessionId := some "s1" }

/-- C8 counterexample: on a toxic utterance the handler appends only the
fixed refusal to `generated` (doctor.py:313-317); the utterance is not
appended to `past` and nothing is submitted for persistence, so no
complete (utterance, reply) Turn is recorded, contrary to the claim. -/
theorem C8_counterexample_toxic_turn_not_recorded :
    (chatFormHandler true none "llm" "insult" sessionActive).1.past = [] ∧
      (chatFormHandler true none "llm" "insult" sessionActive).1.generated = [toxicRefusal] ∧
      (chatFormHandler true none "llm" "insult" sessionActive).2 = [] ∧
      (chatFormHandler true none "llm" "insult" sessionActive).1.past ≠
        sessionActive.past ++ ["insult"] := by decide

/-- C8 amended: in an active session, the FAQ and LLM-fallback branches
append exactly one complete (utterance, reply) Turn and submit exactly
that turn for persistence; the toxic branch appends only the fixed
refusal reply, without recording the utterance and without persisting
anything; the booking-intent branch appends nothing and only switches
the page mode. -/
theorem C8_branch_turns_amended (toxic : Bool) (faq : Option (String × String × ℚ))
    (llmReply userInput : String) (st : SessionState) (sid : String)
    (hs : st.currentSessionId = some sid) :
    (toxic = true →
        (chatFormHandler toxic faq llmReply userInput st).1.past = st.past ∧
          (chatFormHandler toxic faq llmReply userInput st).1.generated =
            st.generated ++ [toxicRefusal] ∧
          (chatFormHandler toxic faq llmReply userInput st).2 = []) ∧
      (toxic = false → isBookingIntent userInput = true →
        (chatFormHandler toxic faq llmReply userInput st).1 = { st with page := "booking" } ∧
          (chatFormHandler toxic faq llmReply userInput st).2 = []) ∧
      (toxic = false → isBookingIntent userInput = false →
        ∃ reply,
          (chatFormHandler toxic faq llmReply userInput st).1.past = st.past ++ [userInput] ∧
            (chatFormHandler toxic faq llmReply userInput st).1.generated =
              st.generated ++ [reply] ∧
            (chatFormHandler toxic faq llmReply userInput st).2 =
              [⟨st.username.getD "", sid, userInput, reply⟩]) := by
  have hnone : st.currentSessionId.isNone = false := by rw [hs]; rfl
  refine ⟨?_, ?_, ?_⟩
  · rintro rfl
    simp [chatFormHandler, hnone]
  · rintro rfl hb
    simp [chatFormHandler, hnone, hb]
  · rintro rfl hb
    match faq with
    | none =>
      refine ⟨llmReply, ?_⟩
      simp [chatFormHandler, hnone, hb, hs]
    | some (q, a, sim) =>
      by_cases hsim : sim > 7 / 10
      · refine ⟨a, ?_⟩
        simp [chatFormHandler, hnone, hb, hs, hsim]
      · refine ⟨llmReply, ?_⟩
        simp [chatFormHandler, hnone, hb, hs, hsim]

theorem C8_branch_turns_amended_witness :
    ∃ reply,
      (chatFormHandler false none "the reply" "hello" sessionActive).1.past =
          sessionActive.past ++ ["hello"] ∧
        (chatFormHandler false none "the reply" "hello" sessionActive).1.generated =
          sessionActive.generated ++ [reply] ∧
        (chatFormHandler false none "the reply" "hello" sessionActive).2 =
          [⟨sessionActive.username.getD "", "s1", "hello", reply⟩] :=
  (C8_branch_turns_amended false none "the reply" "hello" sessionActive "s1" rfl).2.2 rfl
    (by decide)

/-- C9: the logout reset writes the session-local keys back to their
defaults and leaves every persisted store (chat history rows, booking
rows, profile rows, users, feedback) unchanged; stored chat history and
slot availability are still queryable with the same results
afterwards. -/
theorem C9_logout_frame (s : AppState) (u sid : String) (d : Nat) :
    (logoutReset s).db = s.db ∧
      (logoutReset s).session = defaults ∧
      fetchChatHistory (logoutReset s).db.chat u sid = fetchChatHistory s.db.chat u sid ∧
      fetchAvailableSlots (logoutReset s).db.slots d = fetchAvailableSlots s.db.slots d ∧
      (logoutReset s).db.profiles = s.db.profiles :=
  ⟨rfl, rfl, rfl, rfl, rfl⟩

/-- C10: when the database errors during the check or the insert of a
(non-lunch) reserve call, book_appointment rolls the transaction back
and returns the error string; the appointment_slots table is exactly
what it was before the call. -/
theorem C10_db_error_rollback (store : List SlotRow) (u : String) (d s : Nat) (e : String)
    (h : ¬(lunchStart ≤ s ∧ s < lunchEnd)) :
    (bookAppointment (some e) store u d s).message = "Database error: " ++ e ∧
      (bookAppointment (some e) store u d s).store = store := by
  rw [bookAppointment.eq_def, if_neg h]
  exact ⟨rfl, rfl⟩

theorem C10_db_error_rollback_witness :
    (bookAppointment (some "connection reset") [⟨0, 600, true, "bob"⟩] "alice" 0 540).message =
        "Database error: " ++ "connection reset" ∧
      (bookAppointment (some "connection reset") [⟨0, 600, true, "bob"⟩] "alice" 0 540).store =
        [⟨0, 600, true, "bob"⟩] :=
  C10_db_error_rollback [⟨0, 600, true, "bob"⟩] "alice" 0 540 "connection reset" (by decide)

/-- C1: two concurrent reserve calls for the same (date, slot), both
interleaved as check-before-insert (schedule: alice checks, bob checks,
alice inserts, bob inserts) on an empty table, with the schema that
create_tables actually declares (no unique constraint on
(appointment_date, slot_time)): both calls return Confirmed and two
booked rows for the same (date, slot) exist, violating the
exactly-one-Confirmed claim and the at-most-one-booked-row invariant. -/
theorem C1_concurrent_double_booking :
    ((runSchedule createTablesSchema
          ⟨[], [⟨"alice", 0, 540, .start⟩, ⟨"bob", 0, 540, .start⟩]⟩
          [0, 1, 0, 1]).calls.map ReserveCall.phase) =
        [.done bookedMsg, .done bookedMsg] ∧
      ((runSchedule createTablesSchema
          ⟨[], [⟨"alice", 0, 540, .start⟩, ⟨"bob", 0, 540, .start⟩]⟩
          [0, 1, 0, 1]).store.filter
            (fun r => r.appointmentDate == 0 && r.slotTime == 540 && r.isBooked)).length = 2 := by
  decide

end DoctorChatBot
